import Mathlib

/-!
Verification of the FiscalAI backend (src/main.py) against its
natural-language specification.

The file shallowly embeds the parts of `main.py` that the claims speak
about: the password hasher used through `password_context` (a passlib
bcrypt context; the hasher itself is library code not present in the
repository, so it is modelled from the spec's contract in section 4.1),
the in-memory credential store `fake_users_db`, the `/register` and
`/login` handlers, JWT issuance (`jwt.encode` with HS256), the
`/calculate_tva` arithmetic, the `/subscribe` plan-price fallback and
the `/send_notification` fan-out.

Python floats are modelled as exact rationals; `round(x, 2)` is modelled
as round-half-even at two decimals.  Time is modelled in seconds as a
natural number, so `datetime.timedelta(hours=1)` is `3600`.
-/

namespace FiscalAI

/-- Modelled from the spec (section 4.1): the bcrypt password hasher behind
`password_context = CryptContext(schemes=["bcrypt"])` is passlib library
code that is not part of this repository.  A stored value is either a
well-formed salted digest, which embeds its salt and is determined by the
salt and the plaintext it was computed from, or a malformed string that is
not a digest at all. -/
inductive StoredHash where
  | digest (salt : Nat) (key : String)
  | malformed (s : String)
deriving DecidableEq, Repr

/-- Modelled from the spec (section 4.1): `hash(plaintext) -> digest`
produces a salted digest; the salt is supplied by the caller-side
freshness state (see `hashTwice`). -/
def hash (salt : Nat) (p : String) : StoredHash :=
  .digest salt p

/-- Modelled from the spec (section 4.1): `verify(plaintext, digest)`
recomputes using the salt embedded in the digest and compares; on a
malformed digest it returns `false` rather than raising (the function is
total and never throws). -/
def verify (p : String) (h : StoredHash) : Bool :=
  match h with
  | .digest _ key => p == key
  | .malformed _ => false

/-- Two successive calls of `hash` on the same plaintext: each call draws a
fresh salt from the monotone salt supply, so the first call uses `fresh`
and the second uses `fresh + 1`. -/
def hashTwice (p : String) (fresh : Nat) : StoredHash × StoredHash :=
  (hash fresh p, hash (fresh + 1) p)

/-- The `User` pydantic model of `main.py` (username, password, role). -/
structure User where
  username : String
  password : String
  role : String
deriving DecidableEq, Repr

/-- One value of `fake_users_db`: the dict
`{"password": hashed_password, "role": user.role, "2fa_enabled": False}`
stored by `register`. -/
structure UserRecord where
  password : StoredHash
  role : String
  twofa_enabled : Bool
deriving DecidableEq, Repr

/-- The simulated database `fake_users_db`, an association list from
username to record; a later `register` of the same username shadows the
earlier entry, matching Python dict assignment. -/
abbrev Db := List (String × UserRecord)

/-- Dictionary lookup `fake_users_db[username]` / the membership test
`username in fake_users_db`: `none` models absence. -/
def lookup (db : Db) (username : String) : Option UserRecord :=
  (db.find? (fun e => e.1 == username)).map (fun e => e.2)

/-- The `/register` handler: hashes the password with a fresh salt, writes
the record into `fake_users_db` (overwriting any previous record for the
username), and returns the success message.  There is no error path. -/
def register (db : Db) (salt : Nat) (user : User) : Db × String :=
  ((user.username, ⟨hash salt user.password, user.role, false⟩) :: db,
   "User successfully registered")

/-- The `{"sub": ..., "role": ..., "exp": ...}` claims dict passed to
`jwt.encode`; `exp` is an absolute time in seconds. -/
structure Claims where
  sub : String
  role : String
  exp : Nat
deriving DecidableEq, Repr

/-- The signing algorithm; `main.py` always passes `algorithm="HS256"`. -/
inductive Alg where
  | HS256
deriving DecidableEq, Repr

/-- A serialized JWT: the claims set together with the key and algorithm it
was signed with (the signature is modelled by recording the signing key,
which is what a symmetric signature binds the token to). -/
structure Token where
  claims : Claims
  signedWith : String
  alg : Alg
deriving DecidableEq, Repr

/-- `jwt.encode(claims, SECRET_KEY, algorithm="HS256")`. -/
def jwtEncode (c : Claims) (key : String) (a : Alg) : Token :=
  ⟨c, key, a⟩

/-- Modelled from the spec (section 4.3): `verify(token)` checks the
signature against the process-wide secret and checks that the expiry has
not passed (`exp > now`); no decode call appears in `main.py` itself. -/
def jwtValid (secret : String) (now : Nat) (t : Token) : Bool :=
  t.signedWith == secret && t.alg == Alg.HS256 && decide (now < t.claims.exp)

/-- An `HTTPException(status_code=..., detail=...)`. -/
structure HTTPError where
  status_code : Nat
  detail : String
deriving DecidableEq, Repr

/-- The `/login` handler: if the username is absent from `fake_users_db`
or the password does not verify against the stored digest, raise
`HTTPException(400, "Invalid credentials")`; otherwise return the token
`jwt.encode({"sub": username, "role": stored role, "exp": now + 1h},
SECRET_KEY, "HS256")`.  `now` is the current time in seconds. -/
def login (db : Db) (secret : String) (now : Nat) (user : User) :
    Except HTTPError Token :=
  match lookup db user.username with
  | none => .error ⟨400, "Invalid credentials"⟩
  | some r =>
    if verify user.password r.password then
      .ok (jwtEncode ⟨user.username, r.role, now + 3600⟩ secret .HS256)
    else
      .error ⟨400, "Invalid credentials"⟩

/-- Round-half-even (banker's rounding) to an integer, the rounding mode
of Python's builtin `round`. -/
def roundHalfEven (q : ℚ) : ℤ :=
  let f : ℤ := ⌊q⌋
  if q - f < 1 / 2 then f
  else if 1 / 2 < q - f then f + 1
  else if f % 2 = 0 then f else f + 1

/-- Python's `round(x, 2)`: round-half-even at two decimal places. -/
def round2 (q : ℚ) : ℚ :=
  (roundHalfEven (q * 100) : ℚ) / 100

/-- The `TaxRequest` pydantic model (suma, cota_tva), floats modelled as
exact rationals. -/
structure TaxRequest where
  suma : ℚ
  cota_tva : ℚ
deriving DecidableEq, Repr

/-- The `/calculate_tva` handler:
`tva = suma * (cota_tva / 100)`, `total = suma + tva`, both rounded to two
decimals; the pair returned is `(TVA, Total)`. -/
def calculate_tva (request : TaxRequest) : ℚ × ℚ :=
  let tva := request.suma * (request.cota_tva / 100)
  let total := request.suma + tva
  (round2 tva, round2 total)

/-- The `PaymentRequest` pydantic model (user_id, plan). -/
structure PaymentRequest where
  user_id : String
  plan : String
deriving DecidableEq, Repr

/-- The dict `plan_prices = {"basic": 100, "pro": 200, "enterprise": 500}`
in `/subscribe`. -/
def plan_prices : List (String × Nat) :=
  [("basic", 100), ("pro", 200), ("enterprise", 500)]

/-- `plan_prices.get(request.plan, 100) * 100`: the unit amount in bani
sent to the payment provider, falling back to the basic price of 100 RON
for unknown plans. -/
def planAmount (plan : String) : Nat :=
  (((plan_prices.find? (fun e => e.1 == plan)).map (fun e => e.2)).getD 100) * 100

/-- The `/subscribe` handler: computes the unit amount from the plan (no
plan validation, no rejection path of its own) and creates a checkout
session with the payment provider; a provider failure is turned into a
500 response. `createSession` abstracts `stripe.checkout.Session.create`,
taking the unit amount and the product name (the plan string). -/
def subscribe (createSession : Nat → String → Except String String)
    (request : PaymentRequest) : Except HTTPError String :=
  match createSession (planAmount request.plan) request.plan with
  | .ok sid => .ok sid
  | .error e => .error ⟨500, e⟩

/-- The three notification channels hit by `/send_notification`, in the
order the handler posts to them. -/
inductive Channel where
  | email
  | sms
  | whatsapp
deriving DecidableEq, Repr

/-- The body returned by `/send_notification`: either the success message
`{"msg": ...}` or the structured `{"error": ...}` built in the `except`
branch. -/
inductive NotifResponse where
  | msg (s : String)
  | error (s : String)
deriving DecidableEq, Repr

/-- The `/send_notification` handler.  `post c` models
`requests.post(<channel c URL>, ...)`, returning `Except.error e` when the
call raises with message `e`.  The three posts run sequentially inside one
`try`: the first raising call aborts the rest, and the `except` branch
returns `{"error": "Error sending notification: " + e}`.  The first
component of the result records which channel calls were attempted, in
order. -/
def send_notification (post : Channel → Except String Unit) :
    List Channel × NotifResponse :=
  match post .email with
  | .error e => ([.email], .error ("Error sending notification: " ++ e))
  | .ok _ =>
    match post .sms with
    | .error e => ([.email, .sms], .error ("Error sending notification: " ++ e))
    | .ok _ =>
      match post .whatsapp with
      | .error e =>
        ([.email, .sms, .whatsapp], .error ("Error sending notification: " ++ e))
      | .ok _ => ([.email, .sms, .whatsapp], .msg "Notification sent successfully")

/-- Module-level initialization of `main.py` (lines 19-34): it reads
`SECRET_KEY = os.getenv("SECRET_KEY")` with no presence check and
unconditionally constructs the FastAPI app.  The result is the (possibly
absent) signing key together with whether the process goes on to serve
requests — there is no abort path in the source, so the second component
is `true` for every environment. -/
def initApp (getenv : String → Option String) : Option String × Bool :=
  (getenv "SECRET_KEY", true)

/-- A notification environment in which the email channel call raises and
the other channels would succeed; used to exercise `send_notification`. -/
def postEmailFails : Channel → Except String Unit :=
  fun c => match c with
  | .email => .error "boom"
  | _ => .ok ()

/-! ## Helper lemmas -/

/-- Rounding an integer changes nothing. -/
lemma roundHalfEven_intCast (z : ℤ) : roundHalfEven (z : ℚ) = z := by
  unfold roundHalfEven
  norm_num

/-- `round(x, 2)` on a value that is already an integer changes nothing. -/
lemma round2_intCast (z : ℤ) : round2 (z : ℚ) = z := by
  unfold round2
  have h : (z : ℚ) * 100 = ((z * 100 : ℤ) : ℚ) := by push_cast; ring
  rw [h, roundHalfEven_intCast]
  push_cast
  ring

/-! ## Theorems for the claims -/

/-- C1: for every password `p`, `verify(p, hash(p))` is true, and two
successive calls of `hash` on the same `p` draw distinct fresh salts and so
produce two different digests. -/
theorem C1_verify_hash_and_salting (salt : Nat) (p : String) :
    verify p (hash salt p) = true ∧
    ∀ fresh : Nat, (hashTwice p fresh).1 ≠ (hashTwice p fresh).2 := by
  refine ⟨by simp [verify, hash], ?_⟩
  intro fresh
  simp only [hashTwice, hash, ne_eq, StoredHash.digest.injEq, not_and]
  intro h
  omega

/-- C2: for distinct passwords `p1 ≠ p2`, `verify(p1, hash(p2))` is
false. -/
theorem C2_verify_distinct (p1 p2 : String) (salt : Nat) (h : p1 ≠ p2) :
    verify p1 (hash salt p2) = false := by
  simpa [verify, hash] using h

/-- Witness for C2 at `p1 = "a"`, `p2 = "b"`. -/
theorem C2_verify_distinct_witness :
    ("a" : String) ≠ "b" ∧ verify "a" (hash 0 "b") = false :=
  ⟨by decide, C2_verify_distinct "a" "b" 0 (by decide)⟩

/-- C3: whenever the username is not in `fake_users_db`, or the password
does not verify against the stored digest (the single hypothesis covers
both cases, vacuously in the first), `login` raises
`HTTPException(400, "Invalid credentials")`; the result is an error, so in
particular no token is issued. -/
theorem C3_login_invalid_credentials (db : Db) (secret : String) (now : Nat)
    (user : User)
    (h : ∀ r, lookup db user.username = some r →
      verify user.password r.password = false) :
    login db secret now user = .error ⟨400, "Invalid credentials"⟩ := by
  unfold login
  cases hl : lookup db user.username with
  | none => rfl
  | some r => simp [h r hl]

/-- Witness for C3: login on an empty credential store fails with 400. -/
theorem C3_login_invalid_credentials_witness :
    login [] "sk" 0 ⟨"alice", "pw", "user"⟩ = .error ⟨400, "Invalid credentials"⟩ :=
  C3_login_invalid_credentials [] "sk" 0 ⟨"alice", "pw", "user"⟩
    (by intro r hr; simp [lookup] at hr)

/-- C4: a successful login of a registered user returns exactly the token
`jwt.encode({sub: username, role: stored role, exp: now + 3600}, secret,
HS256)`; that token is valid immediately after issuance and invalid at any
time past its expiry. -/
theorem C4_login_token (db : Db) (secret : String) (now : Nat) (user : User)
    (r : UserRecord) (hl : lookup db user.username = some r)
    (hv : verify user.password r.password = true) :
    login db secret now user =
      .ok (jwtEncode ⟨user.username, r.role, now + 3600⟩ secret .HS256) ∧
    jwtValid secret now
      (jwtEncode ⟨user.username, r.role, now + 3600⟩ secret .HS256) = true ∧
    ∀ t : Nat, now + 3600 < t →
      jwtValid secret t
        (jwtEncode ⟨user.username, r.role, now + 3600⟩ secret .HS256) = false := by
  refine ⟨?_, ?_, ?_⟩
  · simp [login, hl, hv]
  · simp [jwtValid, jwtEncode]
  · intro t ht
    simp [jwtValid, jwtEncode]
    omega

/-- Witness for C4 on a one-user store. -/
theorem C4_login_token_witness :
    login [("alice", ⟨hash 0 "pw", "user", false⟩)] "sk" 0 ⟨"alice", "pw", "user"⟩ =
      .ok (jwtEncode ⟨"alice", "user", 3600⟩ "sk" .HS256) ∧
    jwtValid "sk" 0 (jwtEncode ⟨"alice", "user", 3600⟩ "sk" .HS256) = true ∧
    ∀ t : Nat, 0 + 3600 < t →
      jwtValid "sk" t (jwtEncode ⟨"alice", "user", 3600⟩ "sk" .HS256) = false :=
  C4_login_token [("alice", ⟨hash 0 "pw", "user", false⟩)] "sk" 0
    ⟨"alice", "pw", "user"⟩ ⟨hash 0 "pw", "user", false⟩
    (by simp [lookup]) (by decide)

/-- C5: `calculate_tva` returns `TVA = suma * (cota_tva / 100)` and
`Total = suma + TVA`, each rounded to two decimals; in particular
`(100, 19)` gives `(19, 119)` and `(0, 19)` gives `(0, 0)`. -/
theorem C5_calculate_tva (request : TaxRequest) :
    calculate_tva request =
      (round2 (request.suma * (request.cota_tva / 100)),
       round2 (request.suma + request.suma * (request.cota_tva / 100))) ∧
    calculate_tva ⟨100, 19⟩ = (19, 119) ∧
    calculate_tva ⟨0, 19⟩ = (0, 0) := by
  refine ⟨rfl, ?_, ?_⟩
  · have h1 : calculate_tva ⟨100, 19⟩ = (round2 19, round2 119) := by
      simp only [calculate_tva]
      norm_num
    rw [h1]
    have h19 : round2 19 = 19 := by
      have := round2_intCast 19
      norm_num at this
      exact this
    have h119 : round2 119 = 119 := by
      have := round2_intCast 119
      norm_num at this
      exact this
    rw [h19, h119]
  · have h0 : calculate_tva ⟨0, 19⟩ = (round2 0, round2 0) := by
      simp only [calculate_tva]
      norm_num
    rw [h0]
    have hz : round2 0 = 0 := by
      have := round2_intCast 0
      norm_num at this
      exact this
    rw [hz]

/-- C6: registering always returns the success message (there is no
uniqueness error), and after re-registering an existing username with a
new password the stored record is the new one: verification against the
old password fails and against the new password succeeds. -/
theorem C6_reregister_overwrites (db : Db) (u1 u2 : User) (s1 s2 : Nat)
    (_hname : u1.username = u2.username) (hpw : u1.password ≠ u2.password) :
    (register db s1 u1).2 = "User successfully registered" ∧
    (register (register db s1 u1).1 s2 u2).2 = "User successfully registered" ∧
    lookup (register (register db s1 u1).1 s2 u2).1 u2.username =
      some ⟨hash s2 u2.password, u2.role, false⟩ ∧
    verify u1.password (hash s2 u2.password) = false ∧
    verify u2.password (hash s2 u2.password) = true := by
  refine ⟨rfl, rfl, ?_, ?_, ?_⟩
  · simp [register, lookup]
  · simpa [verify, hash] using hpw
  · simp [verify, hash]

/-- Witness for C6: re-register "bob" with a new password on an empty
store. -/
theorem C6_reregister_overwrites_witness :
    (⟨"bob", "old", "user"⟩ : User).username = (⟨"bob", "new", "admin"⟩ : User).username ∧
    (⟨"bob", "old", "user"⟩ : User).password ≠ (⟨"bob", "new", "admin"⟩ : User).password ∧
    (lookup (register (register [] 0 ⟨"bob", "old", "user"⟩).1 1 ⟨"bob", "new", "admin"⟩).1 "bob" =
      some ⟨hash 1 "new", "admin", false⟩ ∧
     verify "old" (hash 1 "new") = false ∧
     verify "new" (hash 1 "new") = true) :=
  ⟨rfl, by decide,
   (C6_reregister_overwrites [] ⟨"bob", "old", "user"⟩ ⟨"bob", "new", "admin"⟩ 0 1
      rfl (by decide)).2.2⟩

/-- C7: for every plaintext and every malformed stored string, `verify`
returns `false`; `verify` is a total function into `Bool`, so it cannot
raise. -/
theorem C7_verify_malformed (p s : String) :
    verify p (StoredHash.malformed s) = false :=
  rfl

/-- C8 (the code, evaluated at the failing input): with `SECRET_KEY`
absent from the environment, module initialization of `main.py` still
loads `none` as the signing key and the process serves requests — there is
no refusal to start anywhere in the source. -/
theorem C8_starts_without_secret_key :
    initApp (fun _ => none) = (none, true) :=
  rfl

/-- C9: in `/send_notification`, the first channel call that raises aborts
the remaining calls (they are never attempted) and the handler returns the
structured error body instead of the success message: the three conjuncts
cover a failure at the email, SMS and WhatsApp call respectively, and the
attempted-call list in each conclusion stops at the failing channel. -/
theorem C9_send_notification_fail_fast (post : Channel → Except String Unit)
    (e : String) :
    (post .email = .error e →
      send_notification post =
        ([.email], .error ("Error sending notification: " ++ e))) ∧
    (post .email = .ok () → post .sms = .error e →
      send_notification post =
        ([.email, .sms], .error ("Error sending notification: " ++ e))) ∧
    (post .email = .ok () → post .sms = .ok () → post .whatsapp = .error e →
      send_notification post =
        ([.email, .sms, .whatsapp], .error ("Error sending notification: " ++ e))) := by
  refine ⟨?_, ?_, ?_⟩
  · intro h1
    simp [send_notification, h1]
  · intro h1 h2
    simp [send_notification, h1, h2]
  · intro h1 h2 h3
    simp [send_notification, h1, h2, h3]

/-- Witness for C9: an environment where the email call raises "boom"; the
SMS and WhatsApp calls are not attempted and the handler returns the error
body. -/
theorem C9_send_notification_fail_fast_witness :
    send_notification postEmailFails =
      ([Channel.email], .error ("Error sending notification: " ++ "boom")) :=
  (C9_send_notification_fail_fast postEmailFails "boom").1 rfl

/-- C10: for a plan outside {basic, pro, enterprise} the handler does not
reject the request — the price falls back to the basic 100 RON, the unit
amount sent to the provider is 10000 bani, and when the provider succeeds
the handler returns the session id. -/
theorem C10_subscribe_unknown_plan (user_id plan : String)
    (h1 : plan ≠ "basic") (h2 : plan ≠ "pro") (h3 : plan ≠ "enterprise") :
    planAmount plan = 10000 ∧
    ∀ (createSession : Nat → String → Except String String) (sid : String),
      createSession (planAmount plan) plan = .ok sid →
      subscribe createSession ⟨user_id, plan⟩ = .ok sid := by
  have hb : (("basic" : String) == plan) = false :=
    beq_eq_false_iff_ne.mpr (Ne.symm h1)
  have hp : (("pro" : String) == plan) = false :=
    beq_eq_false_iff_ne.mpr (Ne.symm h2)
  have he : (("enterprise" : String) == plan) = false :=
    beq_eq_false_iff_ne.mpr (Ne.symm h3)
  have hamount : planAmount plan = 10000 := by
    simp [planAmount, plan_prices, List.find?, hb, hp, he]
  refine ⟨hamount, ?_⟩
  intro createSession sid hs
  simp [subscribe, hs]

/-- Witness for C10 at the unknown plan "gold". -/
theorem C10_subscribe_unknown_plan_witness :
    ("gold" : String) ≠ "basic" ∧ ("gold" : String) ≠ "pro" ∧
    ("gold" : String) ≠ "enterprise" ∧
    (planAmount "gold" = 10000 ∧
     ∀ (createSession : Nat → String → Except String String) (sid : String),
       createSession (planAmount "gold") "gold" = .ok sid →
       subscribe createSession ⟨"u1", "gold"⟩ = .ok sid) :=
  ⟨by decide, by decide, by decide,
   C10_subscribe_unknown_plan "u1" "gold" (by decide) (by decide) (by decide)⟩

end FiscalAI
